import Mathlib

/-!
# hybrid-screenclone: a shallow embedding of `screenclone.cc`

The program mirrors one Xinerama screen of a source X display onto a screen of a
destination X display.  The embedding keeps the pure geometry (`in_screen`,
`segment_intersect`, `intersect_rectangle`), the screen selection
(`get_xinerama_screen`), and the two stateful objects (`image_replayer`,
`mouse_replayer`) as explicit state passing: every method returns the new object
together with the list of Xlib requests it issued, in program order.

Machine integers.  `short` and `int` values are `Int`, `unsigned short` and
`unsigned` values are `Nat`.  All sums formed by the embedded functions are sums of
at most three 16-bit quantities computed in C `int`, so they cannot overflow and
the unbounded `Int` operations agree with the machine ones.  The three places where
a conversion changes a value (`unsigned number = atoi(..)`, the `(unsigned)` casts
of the geometry comparison, and the `unsigned long` to `unsigned int` pixel copy)
carry an explicit reduction modulo `2 ^ 32`.
-/

namespace ScreenClone

/-! ## Data model -/

/-- The `XineramaScreenInfo` record of `Xinerama.h`: `int screen_number` and four
`short` fields. -/
structure XineramaScreenInfo where
  screen_number : Int
  x_org : Int
  y_org : Int
  width : Int
  height : Int
  deriving DecidableEq, Repr

/-- The `XRectangle` record of `Xlib.h`: `short x, y` and
`unsigned short width, height`. -/
structure XRectangle where
  x : Int
  y : Int
  width : Nat
  height : Nat
  deriving DecidableEq, Repr

/-- The `struct xinerama_screen` of the program: the screen record (the `display`
back pointer is a handle and carries no data of its own). -/
structure xinerama_screen where
  info : XineramaScreenInfo
  deriving DecidableEq, Repr

/-- Range of a C `short`. -/
def short_range (v : Int) : Prop := -32768 ≤ v ∧ v ≤ 32767

/-- Range of a C `unsigned short`. -/
def ushort_range (v : Nat) : Prop := v ≤ 65535

instance (v : Int) : Decidable (short_range v) := by
  unfold short_range; infer_instance

instance (v : Nat) : Decidable (ushort_range v) := by
  unfold ushort_range; infer_instance

/-! ## Geometry -/

/-- `xinerama_screen::in_screen`: the point lies in the screen rectangle. -/
def xinerama_screen.in_screen (s : xinerama_screen) (x y : Int) : Bool :=
  decide (x ≥ s.info.x_org) && decide (x < s.info.x_org + s.info.width)
    && decide (y ≥ s.info.y_org) && decide (y < s.info.y_org + s.info.height)

/-- `segment_intersect`: `a1 < b1 ? a2 > b1 : b2 > a1`. -/
def segment_intersect (a1 a2 b1 b2 : Int) : Bool :=
  if a1 < b1 then decide (a2 > b1) else decide (b2 > a1)

/-- `xinerama_screen::intersect_rectangle`: the segment test on both axes. -/
def xinerama_screen.intersect_rectangle (s : xinerama_screen) (rec : XRectangle) : Bool :=
  segment_intersect rec.x (rec.x + rec.width) s.info.x_org (s.info.x_org + s.info.width)
    && segment_intersect rec.y (rec.y + rec.height) s.info.y_org (s.info.y_org + s.info.height)

/-- The half-open box `[x, x+width) x [y, y+height)` of a rectangle contains the
point `(px, py)`. -/
def XRectangle.contains (rec : XRectangle) (px py : Int) : Prop :=
  rec.x ≤ px ∧ px < rec.x + rec.width ∧ rec.y ≤ py ∧ py < rec.y + rec.height

/-- The half-open box of a screen region contains the point `(px, py)`. -/
def xinerama_screen.contains (s : xinerama_screen) (px py : Int) : Prop :=
  s.info.x_org ≤ px ∧ px < s.info.x_org + s.info.width
    ∧ s.info.y_org ≤ py ∧ py < s.info.y_org + s.info.height

/-- The half-open boxes of the rectangle and of the region have a point in common. -/
def boxes_overlap (s : xinerama_screen) (rec : XRectangle) : Prop :=
  ∃ px py : Int, rec.contains px py ∧ s.contains px py

/-! ## Screen selection -/

/-- How a run can fail: the `std::runtime_error` thrown by `ERR2` (its message), or
an access outside a `std::vector`, which C++ leaves undefined. -/
inductive Fault where
  | runtime_error (msg : String)
  | out_of_bounds
  deriving DecidableEq, Repr

/-- `screens[i]` on the `std::vector` of screens. -/
def vector_at (screens : List xinerama_screen) (i : Nat) : Except Fault xinerama_screen :=
  match screens[i]? with
  | some s => .ok s
  | none => .error .out_of_bounds

/-- The test `c >= '0' && c <= '9'`. -/
def is_digit (c : Char) : Bool :=
  decide (48 ≤ c.toNat) && decide (c.toNat ≤ 57)

/-- The test on `name[0]`; for the empty string `name[0]` is the terminating NUL. -/
def starts_with_digit : List Char → Bool
  | [] => false
  | c :: _ => is_digit c

/-- The `isspace` of the C locale. -/
def is_space (c : Char) : Bool :=
  c = ' ' || c = '\t' || c = '\n' || c.toNat = 11 || c.toNat = 12 || c = '\r'

/-- The digit loop of `atoi`: accumulate decimal digits, stop at the first other
character. -/
def atoi_digits : List Char → Int → Int
  | [], acc => acc
  | c :: cs, acc =>
    if is_digit c then atoi_digits cs (10 * acc + ((c.toNat : Int) - 48)) else acc

/-- The C library `atoi`: skip white space, take an optional sign, read decimal
digits.  The value is the mathematical one; C defines it only when it fits `int`. -/
def atoi (s : List Char) : Int :=
  match s.dropWhile is_space with
  | '-' :: cs => - atoi_digits cs 0
  | '+' :: cs => atoi_digits cs 0
  | cs => atoi_digits cs 0

/-- The part of `XRRCrtcInfo` the program reads: `int x, y` and
`unsigned int width, height`. -/
structure XRRCrtcInfo where
  x : Int
  y : Int
  width : Nat
  height : Nat
  deriving DecidableEq, Repr

/-- The part of `XRROutputInfo` the program reads: the output name and its CRTC;
`crtc` is `none` when `output_info->crtc` is 0 and otherwise holds what
`XRRGetCrtcInfo` returns for it. -/
structure XRROutputInfo where
  name : List Char
  crtc : Option XRRCrtcInfo
  deriving DecidableEq, Repr

/-- The four-field comparison of the name branch; the `(unsigned)` casts reduce the
`short` width and height modulo `2 ^ 32`. -/
def crtc_matches (crtc_data : XRRCrtcInfo) (screen : xinerama_screen) : Bool :=
  decide (screen.info.x_org = crtc_data.x)
    && decide (screen.info.y_org = crtc_data.y)
    && decide ((screen.info.width % 4294967296).toNat = crtc_data.width)
    && decide ((screen.info.height % 4294967296).toNat = crtc_data.height)

/-- The inner loop `for (unsigned i = 0; i < screens.size(); i++)`: the first screen
that passes the comparison, if any. -/
def find_matching_screen (crtc_data : XRRCrtcInfo) :
    List xinerama_screen → Option xinerama_screen
  | [] => none
  | screen :: rest =>
    if crtc_matches crtc_data screen then some screen
    else find_matching_screen crtc_data rest

/-- The loop over `res->outputs`: outputs with another name are skipped; the first
output with the name decides (`break`), throwing when it has no CRTC or when no
screen matches its CRTC.  `ok none` means the loop ended with `result == NULL`. -/
def output_loop (screens : List xinerama_screen) (name : List Char) :
    List XRROutputInfo → Except Fault (Option xinerama_screen)
  | [] => .ok none
  | output :: rest =>
    if output.name ≠ name then output_loop screens name rest
    else
      match output.crtc with
      | some crtc_data =>
        match find_matching_screen crtc_data screens with
        | some screen => .ok (some screen)
        | none => .error (.runtime_error "couldn't find matching Xinerama screen")
      | none => .error (.runtime_error "no CRTC for that screen")

/-- `get_xinerama_screen` (built without `ENABLE_NVCTRL`): `outputs` is the RandR
output list of the display, `name` the selector (`none` for a NULL pointer).  The
diagnostic `printf` of the numeric branch writes to standard output only and is
left out. -/
def get_xinerama_screen (outputs : List XRROutputInfo) (screens : List xinerama_screen)
    (name : Option (List Char)) : Except Fault xinerama_screen :=
  match name with
  | none => vector_at screens 0
  | some name =>
    if starts_with_digit name then
      let number : Nat := (atoi name % 4294967296).toNat
      if number ≥ screens.length then
        .error (.runtime_error "invalid screen number")
      else vector_at screens number
    else
      match output_loop screens name outputs with
      | .error e => .error e
      | .ok none => .error (.runtime_error "no screen with that name")
      | .ok (some screen) => .ok screen

/-! ## Requests and cursors -/

/-- The `XcursorImage` record of `Xcursor.h`; all fields are 32-bit unsigned. -/
structure XcursorImage where
  version : Nat
  size : Nat
  width : Nat
  height : Nat
  xhot : Nat
  yhot : Nat
  delay : Nat
  pixels : List Nat
  deriving DecidableEq, Repr

/-- The `XFixesCursorImage` record of `Xfixes.h`: `unsigned short` sizes and hotspot,
and `width * height` pixels of type `unsigned long`. -/
structure XFixesCursorImage where
  x : Int
  y : Int
  width : Nat
  height : Nat
  xhot : Nat
  yhot : Nat
  cursor_serial : Nat
  pixels : List Nat
  deriving DecidableEq, Repr

/-- A cursor handle of the destination display: the invisible cursor made by the
constructor of `mouse_replayer`, or the cursor loaded from an image. -/
inductive Cursor where
  | invisibleCursor
  | loaded (image : XcursorImage)
  deriving DecidableEq, Repr

/-- What a method does to the outside, in program order: the Xlib and SysV requests
it issues (named as in the source), and a `call_` mark recorded at each place where
the program calls one of its own methods. -/
inductive Action where
  | XWarpPointer (x y : Int)
  | XDefineCursor (cursor : Cursor)
  | XFixesGetCursorImage
  | XcursorImageLoadCursor (image : XcursorImage)
  | XFree
  | XFreeCursor (cursor : Cursor)
  | XFlush
  | XCreateBitmapFromData
  | XCreatePixmapCursor
  | shmget (sz : Nat)
  | shmat
  | shmctl
  | XShmCreateImage (width height : Int)
  | XShmAttach
  | XShmGetImage (x y : Int)
  | XShmPutImage (src_x src_y dst_x dst_y width height : Int)
  | XDamageSubtract
  | call_cursor_changed
  | call_damage (rec : XRectangle)
  | call_clear_damage
  | call_copy_if_damaged
  deriving DecidableEq, Repr

/-- The request is a capture (`XShmGetImage`). -/
def Action.is_capture : Action → Bool
  | .XShmGetImage _ _ => true
  | _ => false

/-- The request is a blit (`XShmPutImage`). -/
def Action.is_blit : Action → Bool
  | .XShmPutImage _ _ _ _ _ _ => true
  | _ => false

/-- The request is a pointer warp. -/
def Action.is_warp : Action → Bool
  | .XWarpPointer _ _ => true
  | _ => false

/-! ## image_replayer -/

/-- The mutable part of `struct image_replayer` (`damaged`) and the two screens it
was built for; the remaining members are handles fixed by the constructor. -/
structure image_replayer where
  src_screen : xinerama_screen
  dst_screen : xinerama_screen
  damaged : Bool
  deriving DecidableEq, Repr

/-- The constructor: it allocates and attaches the shared segment and starts with
`damaged( true )`. -/
def image_replayer.construct (src_screen dst_screen : xinerama_screen) :
    image_replayer × List Action :=
  let sz : Nat := ((src_screen.info.width * src_screen.info.height * 4) % 18446744073709551616).toNat
  ({ src_screen := src_screen, dst_screen := dst_screen, damaged := true },
   [.shmget sz, .shmat, .shmctl,
    .XShmCreateImage src_screen.info.width src_screen.info.height,
    .XShmCreateImage src_screen.info.width src_screen.info.height,
    .XShmAttach, .XShmAttach])

/-- `image_replayer::copy_if_damaged`. -/
def image_replayer.copy_if_damaged (r : image_replayer) : image_replayer × List Action :=
  if !r.damaged then (r, [])
  else
    ({ r with damaged := false },
     [.XShmGetImage r.src_screen.info.x_org r.src_screen.info.y_org,
      .XShmPutImage 0 0 r.dst_screen.info.x_org r.dst_screen.info.y_org
        r.src_screen.info.width r.src_screen.info.height,
      .XFlush])

/-- `image_replayer::damage`. -/
def image_replayer.damage (r : image_replayer) (rec : XRectangle) :
    image_replayer × List Action :=
  ({ r with damaged := r.damaged || r.src_screen.intersect_rectangle rec }, [])

/-! ## mouse_replayer -/

/-- The data members of `struct mouse_replayer` that the methods read or write;
`is_on` is the member `on` (a reserved word here). -/
structure mouse_replayer where
  src_screen : xinerama_screen
  dst_screen : xinerama_screen
  is_on : Bool
  wiggle : Bool
  deriving DecidableEq, Repr

/-- The constructor: `on( false )`, and the invisible cursor is created and defined
on the destination window. -/
def mouse_replayer.construct (src_screen dst_screen : xinerama_screen) (wiggle : Bool) :
    mouse_replayer × List Action :=
  ({ src_screen := src_screen, dst_screen := dst_screen, is_on := false, wiggle := wiggle },
   [.XCreateBitmapFromData, .XCreatePixmapCursor, .XDefineCursor .invisibleCursor])

/-- The loop `for ( unsigned i = 0; i < n; ++i ) image.pixels[ i ] = cur->pixels[ i ]`,
with `remaining = n - i`: each `unsigned long` is stored into an `unsigned int`.  A
well-formed `XFixesCursorImage` has `width * height` pixels, so no index leaves the
list; `getD` only makes the function total. -/
def copy_pixels (pixels : List Nat) : (remaining : Nat) → (i : Nat) → List Nat
  | 0, _ => []
  | remaining + 1, i =>
    (pixels.getD i 0 % 4294967296) :: copy_pixels pixels remaining (i + 1)

/-- The `XcursorImage` that `cursor_changed` fills in from the source cursor. -/
def convert_cursor (cur : XFixesCursorImage) : XcursorImage :=
  { version := 0
    size := max cur.width cur.height
    width := cur.width
    height := cur.height
    xhot := cur.xhot
    yhot := cur.yhot
    delay := 0
    pixels := copy_pixels cur.pixels ((cur.width * cur.height) % 4294967296) 0 }

/-- `mouse_replayer::cursor_changed`; `cur` is what `XFixesGetCursorImage` returns
for the source display at the time of the call. -/
def mouse_replayer.cursor_changed (m : mouse_replayer) (cur : XFixesCursorImage) :
    mouse_replayer × List Action :=
  if !m.is_on then (m, [])
  else
    let image := convert_cursor cur
    let cursor := Cursor.loaded image
    (m, [.XFixesGetCursorImage, .XcursorImageLoadCursor image, .XFree,
         .XDefineCursor cursor, .XFreeCursor cursor, .XFlush])

/-- `mouse_replayer::mouse_moved`; the C `%` is the truncating remainder
`Int.tmod`. -/
def mouse_replayer.mouse_moved (m : mouse_replayer) (cur : XFixesCursorImage) (x y : Int) :
    mouse_replayer × List Action :=
  let old_on := m.is_on
  let m1 : mouse_replayer := { m with is_on := m.src_screen.in_screen x y }
  let warps : List Action :=
    if m1.is_on then
      [.XWarpPointer (x - m1.src_screen.info.x_org + m1.dst_screen.info.x_org)
        (y - m1.src_screen.info.y_org + m1.dst_screen.info.y_org)]
    else if m1.wiggle then [.XWarpPointer (Int.tmod x 50) (Int.tmod y 50)]
    else []
  let crossing : mouse_replayer × List Action :=
    if old_on != m1.is_on then
      if m1.is_on then
        let res := m1.cursor_changed cur
        (res.1, Action.call_cursor_changed :: res.2)
      else (m1, [.XDefineCursor .invisibleCursor])
    else (m1, [])
  (crossing.1, warps ++ crossing.2 ++ [.XFlush])

/-! ## The main loop -/

/-- The events the main loop tells apart.  A cursor notification carries the image
that `XFixesGetCursorImage` reports when its handler runs. -/
inductive XEvent where
  | damage_notify (area : XRectangle)
  | cursor_notify (cur : XFixesCursorImage)
  | other
  deriving DecidableEq, Repr

/-- The two objects the main loop drives. -/
structure main_state where
  mouse : mouse_replayer
  image : image_replayer
  deriving DecidableEq, Repr

/-- The body of the `do ... while ( src.pending() )` loop for one event. -/
def main_dispatch (st : main_state) : XEvent → main_state × List Action
  | .damage_notify area =>
    let res := st.image.damage area
    ({ st with image := res.1 }, Action.call_damage area :: res.2)
  | .cursor_notify cur =>
    let res := st.mouse.cursor_changed cur
    ({ st with mouse := res.1 }, Action.call_cursor_changed :: res.2)
  | .other => (st, [])

/-- The `do ... while` loop over the events of one batch, in queue order. -/
def main_drain (st : main_state) : List XEvent → main_state × List Action
  | [] => (st, [])
  | e :: es =>
    let res := main_dispatch st e
    let more := main_drain res.1 es
    (more.1, res.2 ++ more.2)

/-- One iteration of `for ( ;; )` in `main`: the batch `e :: es` (the `do` body runs
at least once), then `root.clear_damage()`, then `image.copy_if_damaged()`. -/
def main_iteration (st : main_state) (e : XEvent) (es : List XEvent) :
    main_state × List Action :=
  let drained := main_drain st (e :: es)
  let copied := drained.1.image.copy_if_damaged
  ({ drained.1 with image := copied.1 },
   drained.2 ++ [Action.call_clear_damage, Action.XDamageSubtract]
     ++ (Action.call_copy_if_damaged :: copied.2))

/-! ## Decimal numerals -/

/-- The decimal numeral with digits `ds`, most significant digit first. -/
def decimal_numeral (ds : List Nat) : List Char := ds.map Nat.digitChar

/-- The value of the decimal numeral with digits `ds`. -/
def decimal_value (ds : List Nat) : Nat := Nat.ofDigits 10 ds.reverse

/-! ## Name selection: what the specification speaks about -/

/-- The region's x, y, width and height all equal the CRTC geometry. -/
def geometry_equal (s : xinerama_screen) (g : XRRCrtcInfo) : Prop :=
  s.info.x_org = g.x ∧ s.info.y_org = g.y
    ∧ s.info.width = (g.width : Int) ∧ s.info.height = (g.height : Int)

instance (s : xinerama_screen) (g : XRRCrtcInfo) : Decidable (geometry_equal s g) := by
  unfold geometry_equal; infer_instance

/-- Region `r` is the first one, in enumeration order, that equals geometry `g`. -/
def first_region_equal (screens : List xinerama_screen) (g : XRRCrtcInfo)
    (r : xinerama_screen) : Prop :=
  ∃ before after, screens = before ++ r :: after ∧ geometry_equal r g
    ∧ ∀ s ∈ before, ¬ geometry_equal s g

/-- Output `o` is the first one, in enumeration order, that carries the name. -/
def first_output_named (outputs : List XRROutputInfo) (name : List Char)
    (o : XRROutputInfo) : Prop :=
  ∃ before after, outputs = before ++ o :: after ∧ o.name = name
    ∧ ∀ p ∈ before, p.name ≠ name

/-- The region's width and height are non-negative `short` values. -/
def nonneg_extent (s : xinerama_screen) : Prop :=
  0 ≤ s.info.width ∧ s.info.width ≤ 32767 ∧ 0 ≤ s.info.height ∧ s.info.height ≤ 32767

instance (s : xinerama_screen) : Decidable (nonneg_extent s) := by
  unfold nonneg_extent; infer_instance

/-! ## Rectangles inside and outside a region -/

/-- The rectangle lies fully outside the region: on some axis it ends at or before
the region's start, or starts at or after the region's end. -/
def XRectangle.fully_outside (rec : XRectangle) (s : xinerama_screen) : Prop :=
  rec.x + rec.width ≤ s.info.x_org ∨ s.info.x_org + s.info.width ≤ rec.x
    ∨ rec.y + rec.height ≤ s.info.y_org ∨ s.info.y_org + s.info.height ≤ rec.y

/-- The rectangle lies fully inside the region. -/
def XRectangle.fully_inside (rec : XRectangle) (s : xinerama_screen) : Prop :=
  s.info.x_org ≤ rec.x ∧ rec.x + rec.width ≤ s.info.x_org + s.info.width
    ∧ s.info.y_org ≤ rec.y ∧ rec.y + rec.height ≤ s.info.y_org + s.info.height

instance (rec : XRectangle) (s : xinerama_screen) : Decidable (rec.fully_outside s) := by
  unfold XRectangle.fully_outside; infer_instance

instance (rec : XRectangle) (s : xinerama_screen) : Decidable (rec.fully_inside s) := by
  unfold XRectangle.fully_inside; infer_instance

/-! ## Reading a batch and a trace -/

/-- The damage rectangle an event carries, if it is a damage notification. -/
def XEvent.damage_area : XEvent → Option XRectangle
  | .damage_notify area => some area
  | _ => none

/-- The event is a damage notification whose rectangle passes the intersection test
with the screen. -/
def XEvent.hits (s : xinerama_screen) : XEvent → Bool
  | .damage_notify area => s.intersect_rectangle area
  | _ => false

/-- The rectangle passed to `damage()`, if the action is the mark of such a call. -/
def Action.damage_call : Action → Option XRectangle
  | .call_damage rec => some rec
  | _ => none

/-- The action belongs to the end of an iteration: the acknowledge
(`clear_damage` and its `XDamageSubtract`), the call of `copy_if_damaged`, a capture
or a blit. -/
def Action.is_pass_action : Action → Bool
  | .call_clear_damage => true
  | .XDamageSubtract => true
  | .call_copy_if_damaged => true
  | .XShmGetImage _ _ => true
  | .XShmPutImage _ _ _ _ _ _ => true
  | _ => false

/-! ## Sequences of calls into the mouse_replayer -/

/-- A call into a `mouse_replayer`, made by the record thread (`mouse_moved`) or by
either thread (`cursor_changed`), with the cursor image the source display reports
during the call.  Both methods hold `cursor_mutex` for their whole body, so calls
from the two threads run one after the other. -/
inductive mouse_call where
  | mouse_moved (cur : XFixesCursorImage) (x y : Int)
  | cursor_changed (cur : XFixesCursorImage)
  deriving DecidableEq, Repr

/-- One call on the object. -/
def mouse_replayer.step (m : mouse_replayer) : mouse_call → mouse_replayer × List Action
  | .mouse_moved cur x y => m.mouse_moved cur x y
  | .cursor_changed cur => m.cursor_changed cur

/-- A sequence of calls on the object, in order, with all requests they issue. -/
def mouse_replayer.run (m : mouse_replayer) : List mouse_call → mouse_replayer × List Action
  | [] => (m, [])
  | c :: cs =>
    let res := m.step c
    let more := res.1.run cs
    (more.1, res.2 ++ more.2)

/-- The cursor defined on the destination window after the requests of a trace:
the argument of the last `XDefineCursor`, or `current` if there is none. -/
def defined_cursor : Option Cursor → List Action → Option Cursor
  | current, [] => current
  | _, .XDefineCursor cursor :: rest => defined_cursor (some cursor) rest
  | current, _ :: rest => defined_cursor current rest

/-- The pointer position of the last `mouse_moved` call of a sequence, or `known` if
there is none. -/
def last_position : Option (Int × Int) → List mouse_call → Option (Int × Int)
  | known, [] => known
  | _, .mouse_moved _ x y :: rest => last_position (some (x, y)) rest
  | known, .cursor_changed _ :: rest => last_position known rest

/-- What holds between calls: while `on` is clear the destination window shows the
invisible cursor, and `on` is set exactly when a position has been reported and the
last one lies in the source screen. -/
def mirror_invariant (m : mouse_replayer) (shown : Option Cursor)
    (known : Option (Int × Int)) : Prop :=
  (m.is_on = false → shown = some Cursor.invisibleCursor)
    ∧ (m.is_on = true ↔ ∃ p : Int × Int, known = some p ∧ m.src_screen.in_screen p.1 p.2 = true)

/-! ## Geometry: lemmas -/

/-- On non-empty segments the test is the overlap of `[a1,a2)` and `[b1,b2)`. -/
theorem segment_intersect_iff (a1 a2 b1 b2 : Int) (ha : a1 < a2) (hb : b1 < b2) :
    segment_intersect a1 a2 b1 b2 = true ↔ ∃ p : Int, a1 ≤ p ∧ p < a2 ∧ b1 ≤ p ∧ p < b2 := by
  unfold segment_intersect
  constructor
  · intro h
    by_cases hlt : a1 < b1
    · rw [if_pos hlt] at h
      exact ⟨b1, by omega, by simpa using h, le_refl _, hb⟩
    · rw [if_neg hlt] at h
      exact ⟨a1, le_refl _, ha, by omega, by simpa using h⟩
  · rintro ⟨p, h1, h2, h3, h4⟩
    by_cases hlt : a1 < b1
    · rw [if_pos hlt]
      simp only [gt_iff_lt, decide_eq_true_eq]
      omega
    · rw [if_neg hlt]
      simp only [gt_iff_lt, decide_eq_true_eq]
      omega

/-- The two worked examples of the specification: overlapping boxes, and boxes
whose edges only touch. -/
theorem intersect_rectangle_examples :
    xinerama_screen.intersect_rectangle ⟨⟨0, 0, 0, 10, 10⟩⟩ ⟨5, 5, 10, 10⟩ = true
      ∧ xinerama_screen.intersect_rectangle ⟨⟨0, 0, 0, 10, 10⟩⟩ ⟨10, 10, 5, 5⟩ = false := by
  constructor <;> decide

/-! ## Screen selection: lemmas -/

/-- The character of a decimal digit passes the digit test, has the digit as its
value, and is neither white space nor a sign. -/
theorem digitChar_is_digit (d : Nat) (hd : d < 10) :
    is_digit (Nat.digitChar d) = true ∧ ((Nat.digitChar d).toNat : Int) - 48 = d
      ∧ is_space (Nat.digitChar d) = false ∧ Nat.digitChar d ≠ '-' ∧ Nat.digitChar d ≠ '+' := by
  interval_cases d <;> decide

/-- The digit loop of `atoi` on a numeral appends the numeral to the accumulator. -/
theorem atoi_digits_numeral (ds : List Nat) (hd : ∀ d ∈ ds, d < 10) (acc : Int) :
    atoi_digits (decimal_numeral ds) acc
      = acc * 10 ^ ds.length + (decimal_value ds : Int) := by
  induction ds generalizing acc with
  | nil => simp [decimal_numeral, decimal_value, atoi_digits]
  | cons d ds ih =>
    have hdig := digitChar_is_digit d (hd d (List.mem_cons_self _ _))
    have ih2 := ih (fun e he => hd e (List.mem_cons_of_mem _ he)) (10 * acc + d)
    unfold decimal_numeral at ih2 ⊢
    rw [List.map_cons, atoi_digits, if_pos hdig.1, hdig.2.1, ih2]
    unfold decimal_value
    rw [List.reverse_cons, Nat.ofDigits_append, List.length_reverse, List.length_cons]
    simp only [Nat.ofDigits_singleton]
    push_cast
    ring

/-- On a non-empty decimal numeral `atoi` returns its value. -/
theorem atoi_numeral (ds : List Nat) (hne : ds ≠ []) (hd : ∀ d ∈ ds, d < 10) :
    atoi (decimal_numeral ds) = (decimal_value ds : Int) := by
  have h := atoi_digits_numeral ds hd 0
  cases ds with
  | nil => exact absurd rfl hne
  | cons d ds =>
    have hdig := digitChar_is_digit d (hd d (List.mem_cons_self _ _))
    rw [zero_mul, zero_add] at h
    rw [← h]
    unfold atoi decimal_numeral
    rw [List.map_cons, List.dropWhile_cons]
    simp only [hdig.2.2.1, Bool.false_eq_true, if_false]
    split
    · rename_i heq
      simp at heq
      exact absurd heq.1 hdig.2.2.2.1
    · rename_i heq
      simp at heq
      exact absurd heq.1 hdig.2.2.2.2
    · rfl

/-- A non-empty decimal numeral takes the numeric branch. -/
theorem starts_with_digit_numeral (ds : List Nat) (hne : ds ≠ []) (hd : ∀ d ∈ ds, d < 10) :
    starts_with_digit (decimal_numeral ds) = true := by
  cases ds with
  | nil => exact absurd rfl hne
  | cons d ds => exact (digitChar_is_digit d (hd d (List.mem_cons_self _ _))).1

/-- An index below the size reads that element of the vector. -/
theorem vector_at_of_lt (screens : List xinerama_screen) (i : Nat) (h : i < screens.length) :
    vector_at screens i = .ok screens[i] := by
  unfold vector_at
  rw [List.getElem?_eq_getElem h]

/-- On a region of non-negative extent the comparison of the name branch is equality
of the four fields. -/
theorem crtc_matches_iff (g : XRRCrtcInfo) (s : xinerama_screen) (hs : nonneg_extent s) :
    crtc_matches g s = true ↔ geometry_equal s g := by
  obtain ⟨h1, h2, h3, h4⟩ := hs
  unfold crtc_matches geometry_equal
  simp only [Bool.and_eq_true, decide_eq_true_eq]
  constructor
  · rintro ⟨⟨⟨a, b⟩, c⟩, d⟩
    exact ⟨a, b, by omega, by omega⟩
  · rintro ⟨a, b, c, d⟩
    exact ⟨⟨⟨a, b⟩, by omega⟩, by omega⟩

/-- The inner loop finds `r` exactly when `r` is the first region equal to `g`. -/
theorem find_matching_screen_eq_some (g : XRRCrtcInfo) (screens : List xinerama_screen)
    (hs : ∀ s ∈ screens, nonneg_extent s) (r : xinerama_screen) :
    find_matching_screen g screens = some r ↔ first_region_equal screens g r := by
  induction screens with
  | nil =>
    constructor
    · intro h
      simp [find_matching_screen] at h
    · rintro ⟨before, after, h, -⟩
      simp at h
  | cons s rest ih =>
    have hs0 := hs s (List.mem_cons_self _ _)
    have ih2 := ih (fun t ht => hs t (List.mem_cons_of_mem _ ht))
    unfold find_matching_screen
    by_cases hm : crtc_matches g s = true
    · rw [if_pos hm]
      have hg := (crtc_matches_iff g s hs0).mp hm
      constructor
      · intro h
        have hsr : s = r := Option.some.inj h
        subst hsr
        exact ⟨[], rest, rfl, hg, fun t ht => absurd ht (List.not_mem_nil t)⟩
      · rintro ⟨before, after, h, -, hb⟩
        cases before with
        | nil =>
          simp only [List.nil_append, List.cons.injEq] at h
          rw [h.1]
        | cons b bs =>
          simp only [List.cons_append, List.cons.injEq] at h
          exact absurd (h.1 ▸ hg) (hb b (List.mem_cons_self _ _))
    · rw [if_neg hm]
      have hg : ¬ geometry_equal s g := fun h => hm ((crtc_matches_iff g s hs0).mpr h)
      rw [ih2]
      constructor
      · rintro ⟨before, after, h, hr, hb⟩
        refine ⟨s :: before, after, by rw [h, List.cons_append], hr, ?_⟩
        intro t ht
        rcases List.mem_cons.mp ht with rfl | ht
        · exact hg
        · exact hb t ht
      · rintro ⟨before, after, h, hr, hb⟩
        cases before with
        | nil =>
          simp only [List.nil_append, List.cons.injEq] at h
          exact absurd (h.1 ▸ hr) hg
        | cons b bs =>
          simp only [List.cons_append, List.cons.injEq] at h
          exact ⟨bs, after, h.2, hr, fun t ht => hb t (List.mem_cons_of_mem _ ht)⟩

/-- The inner loop finds nothing exactly when no region equals `g`. -/
theorem find_matching_screen_eq_none (g : XRRCrtcInfo) (screens : List xinerama_screen)
    (hs : ∀ s ∈ screens, nonneg_extent s) :
    find_matching_screen g screens = none ↔ ∀ s ∈ screens, ¬ geometry_equal s g := by
  induction screens with
  | nil => simp [find_matching_screen]
  | cons s rest ih =>
    have hs0 := hs s (List.mem_cons_self _ _)
    have ih2 := ih (fun t ht => hs t (List.mem_cons_of_mem _ ht))
    unfold find_matching_screen
    by_cases hm : crtc_matches g s = true
    · rw [if_pos hm]
      have hg := (crtc_matches_iff g s hs0).mp hm
      constructor
      · intro h
        exact absurd h (by simp)
      · intro h
        exact absurd hg (h s (List.mem_cons_self _ _))
    · rw [if_neg hm, ih2]
      have hg : ¬ geometry_equal s g := fun h => hm ((crtc_matches_iff g s hs0).mpr h)
      constructor
      · intro h t ht
        rcases List.mem_cons.mp ht with rfl | ht
        · exact hg
        · exact h t ht
      · intro h t ht
        exact h t (List.mem_cons_of_mem _ ht)

/-- Outputs with another name are skipped by the outer loop. -/
theorem output_loop_skip (screens : List xinerama_screen) (name : List Char)
    (before rest : List XRROutputInfo) (hb : ∀ p ∈ before, p.name ≠ name) :
    output_loop screens name (before ++ rest) = output_loop screens name rest := by
  induction before with
  | nil => rfl
  | cons b bs ih =>
    rw [List.cons_append, output_loop, if_pos (hb b (List.mem_cons_self _ _))]
    exact ih (fun p hp => hb p (List.mem_cons_of_mem _ hp))

/-- The first output with the name decides the outer loop. -/
theorem output_loop_first (screens : List xinerama_screen) (name : List Char)
    (outputs : List XRROutputInfo) (o : XRROutputInfo)
    (ho : first_output_named outputs name o) :
    output_loop screens name outputs =
      match o.crtc with
      | some g =>
        match find_matching_screen g screens with
        | some screen => .ok (some screen)
        | none => .error (.runtime_error "couldn't find matching Xinerama screen")
      | none => .error (.runtime_error "no CRTC for that screen") := by
  obtain ⟨before, after, rfl, hn, hb⟩ := ho
  rw [output_loop_skip screens name before _ hb, output_loop, if_neg (not_not.mpr hn)]

/-- Either no output carries the name, or there is a first one that does. -/
theorem first_output_named_cases (outputs : List XRROutputInfo) (name : List Char) :
    (∀ o ∈ outputs, o.name ≠ name) ∨ ∃ o, first_output_named outputs name o := by
  induction outputs with
  | nil => exact Or.inl (fun o ho => absurd ho (List.not_mem_nil o))
  | cons a rest ih =>
    by_cases ha : a.name = name
    · exact Or.inr ⟨a, [], rest, rfl, ha, fun p hp => absurd hp (List.not_mem_nil p)⟩
    · rcases ih with h | ⟨o, before, after, h, hn, hb⟩
      · left
        intro o ho
        rcases List.mem_cons.mp ho with rfl | ho
        · exact ha
        · exact h o ho
      · right
        refine ⟨o, a :: before, after, by rw [h, List.cons_append], hn, ?_⟩
        intro p hp
        rcases List.mem_cons.mp hp with rfl | hp
        · exact ha
        · exact hb p hp

/-- With a name selector the result is the outcome of the outer loop. -/
theorem get_xinerama_screen_name (outputs : List XRROutputInfo)
    (screens : List xinerama_screen) (name : List Char)
    (hname : starts_with_digit name = false) :
    get_xinerama_screen outputs screens (some name) =
      match output_loop screens name outputs with
      | .error e => .error e
      | .ok none => .error (.runtime_error "no screen with that name")
      | .ok (some screen) => .ok screen := by
  unfold get_xinerama_screen
  simp only [hname, Bool.false_eq_true, if_false]

/-! ## image_replayer: lemmas -/

/-- A non-empty rectangle fully outside a region of non-negative extent fails the
intersection test. -/
theorem intersect_rectangle_of_fully_outside (s : xinerama_screen) (rec : XRectangle)
    (hw : 0 < rec.width) (hh : 0 < rec.height) (hs : nonneg_extent s)
    (hout : rec.fully_outside s) : s.intersect_rectangle rec = false := by
  obtain ⟨h1, -, h3, -⟩ := hs
  unfold xinerama_screen.intersect_rectangle segment_intersect
  rw [Bool.and_eq_false_iff]
  rcases hout with h | h | h | h
  · left
    rw [if_pos (by omega)]
    simp only [gt_iff_lt, decide_eq_false_iff_not]
    omega
  · left
    rw [if_neg (by omega)]
    simp only [gt_iff_lt, decide_eq_false_iff_not]
    omega
  · right
    rw [if_pos (by omega)]
    simp only [gt_iff_lt, decide_eq_false_iff_not]
    omega
  · right
    rw [if_neg (by omega)]
    simp only [gt_iff_lt, decide_eq_false_iff_not]
    omega

/-- A non-empty rectangle fully inside a region passes the intersection test. -/
theorem intersect_rectangle_of_fully_inside (s : xinerama_screen) (rec : XRectangle)
    (hw : 0 < rec.width) (hh : 0 < rec.height)
    (hin : rec.fully_inside s) : s.intersect_rectangle rec = true := by
  obtain ⟨h1, h2, h3, h4⟩ := hin
  unfold xinerama_screen.intersect_rectangle segment_intersect
  rw [Bool.and_eq_true, if_neg (by omega), if_neg (by omega)]
  simp only [gt_iff_lt, decide_eq_true_eq]
  omega

/-! ## mouse_replayer: lemmas -/

/-- The pixel loop started at index `i` copies the next `n` pixels, each reduced
modulo `2 ^ 32`, as long as they exist. -/
theorem copy_pixels_eq_map (pixels : List Nat) (n i : Nat) (h : i + n ≤ pixels.length) :
    copy_pixels pixels n i = ((pixels.drop i).take n).map (fun p => p % 4294967296) := by
  induction n generalizing i with
  | zero => simp [copy_pixels]
  | succ n ih =>
    have hi : i < pixels.length := by omega
    rw [copy_pixels, ih (i + 1) (by omega), List.getD_eq_getElem pixels 0 hi,
      List.drop_eq_getElem_cons hi, List.take_succ_cons, List.map_cons]

/-! ## The main loop: lemmas -/

/-- Draining a batch hands each damage rectangle to `damage()` in queue order, sets
`damaged` if one of them intersects the source screen, leaves the rest of the image
replayer alone, and issues no acknowledge, capture or blit. -/
theorem main_drain_spec (st : main_state) (evs : List XEvent) :
    (main_drain st evs).1.image
        = { st.image with
            damaged := st.image.damaged || evs.any (XEvent.hits st.image.src_screen) }
    ∧ (main_drain st evs).2.filterMap Action.damage_call
        = evs.filterMap XEvent.damage_area
    ∧ ∀ a ∈ (main_drain st evs).2, a.is_pass_action = false := by
  induction evs generalizing st with
  | nil => simp [main_drain]
  | cons e es ih =>
    cases e with
    | damage_notify area =>
      obtain ⟨h1, h2, h3⟩ := ih (main_dispatch st (.damage_notify area)).1
      refine ⟨?_, ?_, ?_⟩
      · rw [main_drain, h1]
        simp [main_dispatch, image_replayer.damage, XEvent.hits, Bool.or_assoc]
      · rw [main_drain]
        simp only [List.filterMap_append, h2]
        simp [main_dispatch, image_replayer.damage, Action.damage_call, XEvent.damage_area]
      · rw [main_drain]
        intro a ha
        rcases List.mem_append.mp ha with ha | ha
        · simp [main_dispatch, image_replayer.damage] at ha
          subst ha
          rfl
        · exact h3 a ha
    | cursor_notify cur =>
      obtain ⟨h1, h2, h3⟩ := ih (main_dispatch st (.cursor_notify cur)).1
      refine ⟨?_, ?_, ?_⟩
      · rw [main_drain, h1]
        cases hon : st.mouse.is_on <;>
          simp [main_dispatch, mouse_replayer.cursor_changed, XEvent.hits, hon]
      · rw [main_drain]
        simp only [List.filterMap_append, h2]
        cases hon : st.mouse.is_on <;>
          simp [main_dispatch, mouse_replayer.cursor_changed, Action.damage_call,
            XEvent.damage_area, hon]
      · rw [main_drain]
        intro a ha
        rcases List.mem_append.mp ha with ha | ha
        · cases hon : st.mouse.is_on <;>
            simp [main_dispatch, mouse_replayer.cursor_changed, hon] at ha
          · subst ha
            rfl
          · rcases ha with rfl | rfl | rfl | rfl | rfl | rfl | rfl <;> rfl
        · exact h3 a ha
    | other =>
      obtain ⟨h1, h2, h3⟩ := ih (main_dispatch st .other).1
      refine ⟨?_, ?_, ?_⟩
      · rw [main_drain, h1]
        simp [main_dispatch, XEvent.hits]
      · rw [main_drain]
        simp only [List.filterMap_append, h2]
        simp [main_dispatch, XEvent.damage_area]
      · rw [main_drain]
        intro a ha
        rcases List.mem_append.mp ha with ha | ha
        · simp [main_dispatch] at ha
        · exact h3 a ha

/-! ## Sequences of calls: lemmas -/

/-- The cursor shown after two traces is the one shown after the second, started
from the one shown after the first. -/
theorem defined_cursor_append (current : Option Cursor) (t1 t2 : List Action) :
    defined_cursor current (t1 ++ t2) = defined_cursor (defined_cursor current t1) t2 := by
  induction t1 generalizing current with
  | nil => rfl
  | cons a rest ih =>
    rw [List.cons_append]
    cases a <;> simp only [defined_cursor] <;> exact ih _

/-- The last position of two sequences of calls. -/
theorem last_position_append (known : Option (Int × Int)) (c1 c2 : List mouse_call) :
    last_position known (c1 ++ c2) = last_position (last_position known c1) c2 := by
  induction c1 generalizing known with
  | nil => rfl
  | cons a rest ih =>
    rw [List.cons_append]
    cases a <;> simp only [last_position] <;> exact ih _

/-- A run over two sequences of calls is the run over the first followed by the run
over the second. -/
theorem mouse_replayer.run_append (m : mouse_replayer) (c1 c2 : List mouse_call) :
    m.run (c1 ++ c2) = (((m.run c1).1.run c2).1, (m.run c1).2 ++ ((m.run c1).1.run c2).2) := by
  induction c1 generalizing m with
  | nil => simp [mouse_replayer.run]
  | cons a rest ih =>
    rw [List.cons_append]
    simp only [mouse_replayer.run]
    rw [ih, List.append_assoc]

/-- No call changes the screens of the object. -/
theorem mouse_replayer.step_src_screen (m : mouse_replayer) (c : mouse_call) :
    (m.step c).1.src_screen = m.src_screen := by
  cases c with
  | mouse_moved cur x y =>
    cases hon : m.is_on <;> cases hin : m.src_screen.in_screen x y <;>
      simp [mouse_replayer.step, mouse_replayer.mouse_moved, mouse_replayer.cursor_changed,
        hon, hin]
  | cursor_changed cur =>
    cases hon : m.is_on <;>
      simp [mouse_replayer.step, mouse_replayer.cursor_changed, hon]

/-- A call that defines a cursor loaded from the source leaves `on` set. -/
theorem mouse_replayer.step_on_of_loaded (m : mouse_replayer) (c : mouse_call)
    (image : XcursorImage)
    (h : Action.XDefineCursor (Cursor.loaded image) ∈ (m.step c).2) :
    (m.step c).1.is_on = true := by
  cases c with
  | mouse_moved cur x y =>
    cases hon : m.is_on <;> cases hin : m.src_screen.in_screen x y <;>
      cases hw : m.wiggle <;>
      simp [mouse_replayer.step, mouse_replayer.mouse_moved, mouse_replayer.cursor_changed,
        hon, hin, hw] at h ⊢
  | cursor_changed cur =>
    cases hon : m.is_on <;>
      simp [mouse_replayer.step, mouse_replayer.cursor_changed, hon] at h ⊢

/-- One call keeps the invariant. -/
theorem mirror_invariant_step (m : mouse_replayer) (shown : Option Cursor)
    (known : Option (Int × Int)) (c : mouse_call) (h : mirror_invariant m shown known) :
    mirror_invariant (m.step c).1 (defined_cursor shown (m.step c).2)
      (last_position known [c]) := by
  obtain ⟨h1, h2⟩ := h
  cases c with
  | mouse_moved cur x y =>
    cases hon : m.is_on <;> cases hin : m.src_screen.in_screen x y <;>
      cases hw : m.wiggle <;>
      simp [mirror_invariant, mouse_replayer.step, mouse_replayer.mouse_moved,
        mouse_replayer.cursor_changed, defined_cursor, last_position, hon, hin, hw]
    all_goals exact h1 hon
  | cursor_changed cur =>
    have hst : (m.step (.cursor_changed cur)).1 = m := by
      cases hon : m.is_on <;> simp [mouse_replayer.step, mouse_replayer.cursor_changed, hon]
    have hpos : last_position known [mouse_call.cursor_changed cur] = known := rfl
    unfold mirror_invariant
    rw [hst, hpos]
    refine ⟨?_, h2⟩
    intro hoff
    have htr : (m.step (.cursor_changed cur)).2 = [] := by
      simp [mouse_replayer.step, mouse_replayer.cursor_changed, hoff]
    rw [htr]
    exact h1 hoff

/-- Every sequence of calls keeps the invariant. -/
theorem mirror_invariant_run (m : mouse_replayer) (shown : Option Cursor)
    (known : Option (Int × Int)) (calls : List mouse_call)
    (h : mirror_invariant m shown known) :
    mirror_invariant (m.run calls).1 (defined_cursor shown (m.run calls).2)
      (last_position known calls) := by
  induction calls generalizing m shown known with
  | nil => exact h
  | cons c cs ih =>
    have hstep := mirror_invariant_step m shown known c h
    have hrun := ih (m.step c).1 _ _ hstep
    have hpos : last_position known (c :: cs)
        = last_position (last_position known [c]) cs :=
      last_position_append known [c] cs
    rw [mouse_replayer.run, defined_cursor_append, hpos]
    exact hrun

/-- No sequence of calls changes the source screen of the object. -/
theorem mouse_replayer.run_src_screen (m : mouse_replayer) (calls : List mouse_call) :
    (m.run calls).1.src_screen = m.src_screen := by
  induction calls generalizing m with
  | nil => rfl
  | cons c cs ih =>
    rw [mouse_replayer.run]
    exact (ih (m.step c).1).trans (m.step_src_screen c)

/-- The constructor establishes the invariant. -/
theorem mirror_invariant_construct (src_screen dst_screen : xinerama_screen) (wiggle : Bool) :
    mirror_invariant (mouse_replayer.construct src_screen dst_screen wiggle).1
      (defined_cursor none (mouse_replayer.construct src_screen dst_screen wiggle).2) none := by
  simp [mirror_invariant, mouse_replayer.construct, defined_cursor]

/-! ## Claims -/

/-- C1 (counterexample): with a zero-sized rectangle placed inside the region, or a
zero-sized region placed inside the rectangle, `intersect_rectangle` returns true
although the half-open boxes have no point in common. -/
theorem C1_empty_box_counterexample :
    (xinerama_screen.intersect_rectangle ⟨⟨0, 0, 0, 10, 10⟩⟩ ⟨5, 5, 0, 0⟩ = true
      ∧ ¬ boxes_overlap ⟨⟨0, 0, 0, 10, 10⟩⟩ ⟨5, 5, 0, 0⟩)
    ∧ (xinerama_screen.intersect_rectangle ⟨⟨0, 0, 0, 0, 0⟩⟩ ⟨-5, -5, 10, 10⟩ = true
      ∧ ¬ boxes_overlap ⟨⟨0, 0, 0, 0, 0⟩⟩ ⟨-5, -5, 10, 10⟩) := by
  refine ⟨⟨by decide, ?_⟩, ⟨by decide, ?_⟩⟩
  · rintro ⟨px, py, ⟨h1, h2, -, -⟩, -⟩
    simp only [Nat.cast_zero, add_zero] at h1 h2
    omega
  · rintro ⟨px, py, -, ⟨h1, h2, -, -⟩⟩
    simp only [add_zero] at h1 h2
    omega

/-- C1 (amended): for a region and a damage rectangle that both have positive width
and height, `intersect_rectangle` returns true exactly when the half-open boxes
`[x, x+width) x [y, y+height)` of the rectangle and of the region have a point in
common. -/
theorem C1_intersect_rectangle_iff_overlap (s : xinerama_screen) (rec : XRectangle)
    (hw : 0 < rec.width) (hh : 0 < rec.height)
    (hsw : 0 < s.info.width) (hsh : 0 < s.info.height) :
    s.intersect_rectangle rec = true ↔ boxes_overlap s rec := by
  have hx := segment_intersect_iff rec.x (rec.x + rec.width) s.info.x_org
    (s.info.x_org + s.info.width) (by omega) (by omega)
  have hy := segment_intersect_iff rec.y (rec.y + rec.height) s.info.y_org
    (s.info.y_org + s.info.height) (by omega) (by omega)
  unfold xinerama_screen.intersect_rectangle boxes_overlap XRectangle.contains
    xinerama_screen.contains
  rw [Bool.and_eq_true, hx, hy]
  constructor
  · rintro ⟨⟨px, a, b, c, d⟩, ⟨py, e, f, g, h⟩⟩
    exact ⟨px, py, ⟨a, b, e, f⟩, ⟨c, d, g, h⟩⟩
  · rintro ⟨px, py, ⟨a, b, e, f⟩, ⟨c, d, g, h⟩⟩
    exact ⟨⟨px, a, b, c, d⟩, ⟨py, e, f, g, h⟩⟩

/-- C1 (witness): region `{0,0,10,10}` and rectangle `{5,5,10,10}` pass the test, so
their boxes overlap; region `{0,0,10,10}` and rectangle `{10,10,5,5}`, whose edges
only touch, fail it, so their boxes do not. -/
theorem C1_intersect_rectangle_iff_overlap_witness :
    boxes_overlap ⟨⟨0, 0, 0, 10, 10⟩⟩ ⟨5, 5, 10, 10⟩
      ∧ ¬ boxes_overlap ⟨⟨0, 0, 0, 10, 10⟩⟩ ⟨10, 10, 5, 5⟩ :=
  ⟨(C1_intersect_rectangle_iff_overlap ⟨⟨0, 0, 0, 10, 10⟩⟩ ⟨5, 5, 10, 10⟩
      (by decide) (by decide) (by decide) (by decide)).mp (by decide),
   fun h => absurd
     ((C1_intersect_rectangle_iff_overlap ⟨⟨0, 0, 0, 10, 10⟩⟩ ⟨10, 10, 5, 5⟩
       (by decide) (by decide) (by decide) (by decide)).mpr h) (by decide)⟩

/-- C2: with no selector and a non-empty region list `get_xinerama_screen` returns
`screens[0]`; with a decimal numeral of value `n` below `2 ^ 31` it returns
`screens[n]` when `n` is below the number of regions and otherwise throws
"invalid screen number", so it never reads outside the list. -/
theorem C2_get_xinerama_screen_index (outputs : List XRROutputInfo)
    (screens : List xinerama_screen) :
    (∀ h : 0 < screens.length, get_xinerama_screen outputs screens none = .ok screens[0])
    ∧ (∀ ds : List Nat, ds ≠ [] → (∀ d ∈ ds, d < 10) → decimal_value ds < 2147483648 →
        (∀ h : decimal_value ds < screens.length,
          get_xinerama_screen outputs screens (some (decimal_numeral ds))
            = .ok screens[decimal_value ds])
        ∧ (screens.length ≤ decimal_value ds →
          get_xinerama_screen outputs screens (some (decimal_numeral ds))
            = .error (.runtime_error "invalid screen number"))) := by
  refine ⟨fun h => vector_at_of_lt screens 0 h, ?_⟩
  intro ds hne hd hfit
  have hnum : (atoi (decimal_numeral ds) % 4294967296).toNat = decimal_value ds := by
    rw [atoi_numeral ds hne hd]
    omega
  constructor
  · intro h
    unfold get_xinerama_screen
    simp only [starts_with_digit_numeral ds hne hd, if_true, hnum]
    rw [if_neg (by omega)]
    exact vector_at_of_lt screens _ h
  · intro h
    unfold get_xinerama_screen
    simp only [starts_with_digit_numeral ds hne hd, if_true, hnum]
    rw [if_pos (by omega)]

/-- C2 (witness): with three regions, selector "2" gives `regions[2]` and selector
"5" fails. -/
theorem C2_get_xinerama_screen_index_witness :
    get_xinerama_screen []
        [⟨⟨0, 0, 0, 10, 10⟩⟩, ⟨⟨1, 10, 0, 20, 10⟩⟩, ⟨⟨2, 30, 0, 5, 5⟩⟩] (some ['2'])
      = .ok ⟨⟨2, 30, 0, 5, 5⟩⟩
    ∧ get_xinerama_screen []
        [⟨⟨0, 0, 0, 10, 10⟩⟩, ⟨⟨1, 10, 0, 20, 10⟩⟩, ⟨⟨2, 30, 0, 5, 5⟩⟩] (some ['5'])
      = .error (.runtime_error "invalid screen number") :=
  ⟨((C2_get_xinerama_screen_index []
      [⟨⟨0, 0, 0, 10, 10⟩⟩, ⟨⟨1, 10, 0, 20, 10⟩⟩, ⟨⟨2, 30, 0, 5, 5⟩⟩]).2 [2]
      (by decide) (by decide) (by decide)).1 (by decide),
   ((C2_get_xinerama_screen_index []
      [⟨⟨0, 0, 0, 10, 10⟩⟩, ⟨⟨1, 10, 0, 20, 10⟩⟩, ⟨⟨2, 30, 0, 5, 5⟩⟩]).2 [5]
      (by decide) (by decide) (by decide)).2 (by decide)⟩

/-- C3 (counterexample): two outputs carry the name "A", the first without a CRTC and
the second with the geometry of the only region: some output with the name has a
first equal region, yet the call fails.  And a region of width and height -1 is
returned for a CRTC of width and height 4294967295, which it does not equal. -/
theorem C3_first_output_decides_counterexample :
    ((∃ o ∈ [(⟨['A'], none⟩ : XRROutputInfo), ⟨['A'], some ⟨0, 0, 10, 10⟩⟩],
        o.name = ['A'] ∧ ∃ g, o.crtc = some g
          ∧ first_region_equal [⟨⟨0, 0, 0, 10, 10⟩⟩] g ⟨⟨0, 0, 0, 10, 10⟩⟩)
      ∧ get_xinerama_screen [⟨['A'], none⟩, ⟨['A'], some ⟨0, 0, 10, 10⟩⟩]
          [⟨⟨0, 0, 0, 10, 10⟩⟩] (some ['A'])
        = .error (.runtime_error "no CRTC for that screen"))
    ∧ (get_xinerama_screen [⟨['A'], some ⟨0, 0, 4294967295, 4294967295⟩⟩]
          [⟨⟨0, 0, 0, -1, -1⟩⟩] (some ['A'])
        = .ok ⟨⟨0, 0, 0, -1, -1⟩⟩
      ∧ ¬ geometry_equal ⟨⟨0, 0, 0, -1, -1⟩⟩ ⟨0, 0, 4294967295, 4294967295⟩) := by
  refine ⟨⟨⟨⟨['A'], some ⟨0, 0, 10, 10⟩⟩, by simp, rfl, ⟨0, 0, 10, 10⟩, rfl, ?_⟩, rfl⟩, rfl, ?_⟩
  · exact ⟨[], [], rfl, by decide, fun s hs => absurd hs (List.not_mem_nil s)⟩
  · decide

/-- C3 (amended): for a name selector (not starting with a digit) and regions of
non-negative width and height, `get_xinerama_screen` returns region `r` exactly when
the first output carrying the name has an active geometry and `r` is the first
region, in enumeration order, equal to it on x, y, width and height; it throws when
no output has the name, when the first output with the name has no CRTC, and when no
region equals that output's geometry. -/
theorem C3_get_xinerama_screen_by_name (outputs : List XRROutputInfo)
    (screens : List xinerama_screen) (name : List Char)
    (hname : starts_with_digit name = false)
    (hs : ∀ s ∈ screens, nonneg_extent s) :
    (∀ r, get_xinerama_screen outputs screens (some name) = .ok r ↔
        ∃ o g, first_output_named outputs name o ∧ o.crtc = some g
          ∧ first_region_equal screens g r)
    ∧ ((∀ o ∈ outputs, o.name ≠ name) →
        get_xinerama_screen outputs screens (some name)
          = .error (.runtime_error "no screen with that name"))
    ∧ (∀ o, first_output_named outputs name o → o.crtc = none →
        get_xinerama_screen outputs screens (some name)
          = .error (.runtime_error "no CRTC for that screen"))
    ∧ (∀ o g, first_output_named outputs name o → o.crtc = some g →
        (∀ s ∈ screens, ¬ geometry_equal s g) →
        get_xinerama_screen outputs screens (some name)
          = .error (.runtime_error "couldn't find matching Xinerama screen")) := by
  have hget := get_xinerama_screen_name outputs screens name hname
  have hnone : (∀ o ∈ outputs, o.name ≠ name) →
      get_xinerama_screen outputs screens (some name)
        = .error (.runtime_error "no screen with that name") := by
    intro h
    have hl := output_loop_skip screens name outputs [] h
    rw [List.append_nil] at hl
    rw [hget, hl]
    rfl
  have hcrtc : ∀ o, first_output_named outputs name o → o.crtc = none →
      get_xinerama_screen outputs screens (some name)
        = .error (.runtime_error "no CRTC for that screen") := by
    intro o ho hc
    rw [hget, output_loop_first screens name outputs o ho, hc]
  have hmiss : ∀ o g, first_output_named outputs name o → o.crtc = some g →
      (∀ s ∈ screens, ¬ geometry_equal s g) →
      get_xinerama_screen outputs screens (some name)
        = .error (.runtime_error "couldn't find matching Xinerama screen") := by
    intro o g ho hc hno
    rw [hget, output_loop_first screens name outputs o ho, hc]
    simp only [(find_matching_screen_eq_none g screens hs).mpr hno]
  have hfound : ∀ o g r, first_output_named outputs name o → o.crtc = some g →
      find_matching_screen g screens = some r →
      get_xinerama_screen outputs screens (some name) = .ok r := by
    intro o g r ho hc hf
    rw [hget, output_loop_first screens name outputs o ho, hc]
    simp only [hf]
  refine ⟨?_, hnone, hcrtc, hmiss⟩
  intro r
  constructor
  · intro hr
    rcases first_output_named_cases outputs name with h | ⟨o, ho⟩
    · rw [hnone h] at hr
      simp at hr
    · cases hc : o.crtc with
      | none =>
        rw [hcrtc o ho hc] at hr
        simp at hr
      | some g =>
        cases hf : find_matching_screen g screens with
        | none =>
          rw [hmiss o g ho hc ((find_matching_screen_eq_none g screens hs).mp hf)] at hr
          simp at hr
        | some s =>
          rw [hfound o g s ho hc hf] at hr
          have hsr : s = r := by simpa using hr
          subst hsr
          exact ⟨o, g, ho, hc, (find_matching_screen_eq_some g screens hs s).mp hf⟩
  · rintro ⟨o, g, ho, hc, hfirst⟩
    exact hfound o g r ho hc ((find_matching_screen_eq_some g screens hs r).mpr hfirst)

/-- C3 (witness): outputs "B" (no CRTC) and "A" (geometry `{10,0,20,10}`), three
regions; selector "A" returns the second region, the first one equal to that
geometry. -/
theorem C3_get_xinerama_screen_by_name_witness :
    get_xinerama_screen [⟨['B'], none⟩, ⟨['A'], some ⟨10, 0, 20, 10⟩⟩]
        [⟨⟨0, 0, 0, 10, 10⟩⟩, ⟨⟨1, 10, 0, 20, 10⟩⟩, ⟨⟨2, 30, 0, 5, 5⟩⟩] (some ['A'])
      = .ok ⟨⟨1, 10, 0, 20, 10⟩⟩ :=
  ((C3_get_xinerama_screen_by_name [⟨['B'], none⟩, ⟨['A'], some ⟨10, 0, 20, 10⟩⟩]
      [⟨⟨0, 0, 0, 10, 10⟩⟩, ⟨⟨1, 10, 0, 20, 10⟩⟩, ⟨⟨2, 30, 0, 5, 5⟩⟩] ['A'] (by decide)
      (by
        intro s hs
        simp only [List.mem_cons, List.mem_singleton, List.not_mem_nil, or_false] at hs
        rcases hs with rfl | rfl | rfl <;> decide)).1
    ⟨⟨1, 10, 0, 20, 10⟩⟩).mpr
    ⟨⟨['A'], some ⟨10, 0, 20, 10⟩⟩, ⟨10, 0, 20, 10⟩,
      ⟨[⟨['B'], none⟩], [], rfl, rfl, by decide⟩, rfl,
      ⟨[⟨⟨0, 0, 0, 10, 10⟩⟩], [⟨⟨2, 30, 0, 5, 5⟩⟩], rfl, by decide, by decide⟩⟩

/-- C4: a `mouse_moved` that crosses into the source region records exactly one call
of `cursor_changed()` and exactly one warp, to
`(x - src.x_org + dst.x_org, y - src.y_org + dst.y_org)`, and leaves `on` true; one
that crosses out defines the invisible cursor exactly once, records no call of
`cursor_changed()` and leaves `on` false; one that does not change `on` does
neither.  In every case only `on` changes in the object. -/
theorem C4_mouse_moved_crossing (m : mouse_replayer) (cur : XFixesCursorImage) (x y : Int) :
    (m.is_on = false → m.src_screen.in_screen x y = true →
      (m.mouse_moved cur x y).2.count Action.call_cursor_changed = 1
      ∧ (m.mouse_moved cur x y).2.filter Action.is_warp
          = [Action.XWarpPointer (x - m.src_screen.info.x_org + m.dst_screen.info.x_org)
              (y - m.src_screen.info.y_org + m.dst_screen.info.y_org)]
      ∧ (m.mouse_moved cur x y).1.is_on = true)
    ∧ (m.is_on = true → m.src_screen.in_screen x y = false →
      (m.mouse_moved cur x y).2.count (Action.XDefineCursor Cursor.invisibleCursor) = 1
      ∧ (m.mouse_moved cur x y).2.count Action.call_cursor_changed = 0
      ∧ (m.mouse_moved cur x y).1.is_on = false)
    ∧ (m.src_screen.in_screen x y = m.is_on →
      (m.mouse_moved cur x y).2.count Action.call_cursor_changed = 0
      ∧ (m.mouse_moved cur x y).2.count (Action.XDefineCursor Cursor.invisibleCursor) = 0)
    ∧ (m.mouse_moved cur x y).1 = { m with is_on := m.src_screen.in_screen x y } := by
  refine ⟨?_, ?_, ?_, ?_⟩
  · intro hoff hin
    simp [mouse_replayer.mouse_moved, mouse_replayer.cursor_changed, hoff, hin,
      Action.is_warp]
  · intro hon hout
    cases hw : m.wiggle <;>
      simp [mouse_replayer.mouse_moved, hon, hout, hw]
  · intro hsame
    cases hon : m.is_on <;> cases hw : m.wiggle <;>
      simp [mouse_replayer.mouse_moved, hsame, hon, hw]
  · cases hon : m.is_on <;> cases hin : m.src_screen.in_screen x y <;>
      simp [mouse_replayer.mouse_moved, mouse_replayer.cursor_changed, hon, hin]

/-- C4 (witness): source region `{0,0,10,10}`, destination region at `(100,200)`;
moving to `(3,4)` while off crosses in, moving to `(123,77)` while on crosses out,
moving to `(5,5)` while on changes nothing. -/
theorem C4_mouse_moved_crossing_witness :
    ((mouse_replayer.mouse_moved ⟨⟨⟨0, 0, 0, 10, 10⟩⟩, ⟨⟨0, 100, 200, 10, 10⟩⟩, false, true⟩
          ⟨0, 0, 1, 1, 0, 0, 1, [255]⟩ 3 4).2.count Action.call_cursor_changed = 1
      ∧ (mouse_replayer.mouse_moved ⟨⟨⟨0, 0, 0, 10, 10⟩⟩, ⟨⟨0, 100, 200, 10, 10⟩⟩, false, true⟩
          ⟨0, 0, 1, 1, 0, 0, 1, [255]⟩ 3 4).2.filter Action.is_warp
        = [Action.XWarpPointer 103 204]
      ∧ (mouse_replayer.mouse_moved ⟨⟨⟨0, 0, 0, 10, 10⟩⟩, ⟨⟨0, 100, 200, 10, 10⟩⟩, false, true⟩
          ⟨0, 0, 1, 1, 0, 0, 1, [255]⟩ 3 4).1.is_on = true)
    ∧ ((mouse_replayer.mouse_moved ⟨⟨⟨0, 0, 0, 10, 10⟩⟩, ⟨⟨0, 100, 200, 10, 10⟩⟩, true, true⟩
          ⟨0, 0, 1, 1, 0, 0, 1, [255]⟩ 123 77).2.count
            (Action.XDefineCursor Cursor.invisibleCursor) = 1
      ∧ (mouse_replayer.mouse_moved ⟨⟨⟨0, 0, 0, 10, 10⟩⟩, ⟨⟨0, 100, 200, 10, 10⟩⟩, true, true⟩
          ⟨0, 0, 1, 1, 0, 0, 1, [255]⟩ 123 77).2.count Action.call_cursor_changed = 0
      ∧ (mouse_replayer.mouse_moved ⟨⟨⟨0, 0, 0, 10, 10⟩⟩, ⟨⟨0, 100, 200, 10, 10⟩⟩, true, true⟩
          ⟨0, 0, 1, 1, 0, 0, 1, [255]⟩ 123 77).1.is_on = false)
    ∧ ((mouse_replayer.mouse_moved ⟨⟨⟨0, 0, 0, 10, 10⟩⟩, ⟨⟨0, 100, 200, 10, 10⟩⟩, true, true⟩
          ⟨0, 0, 1, 1, 0, 0, 1, [255]⟩ 5 5).2.count Action.call_cursor_changed = 0
      ∧ (mouse_replayer.mouse_moved ⟨⟨⟨0, 0, 0, 10, 10⟩⟩, ⟨⟨0, 100, 200, 10, 10⟩⟩, true, true⟩
          ⟨0, 0, 1, 1, 0, 0, 1, [255]⟩ 5 5).2.count
            (Action.XDefineCursor Cursor.invisibleCursor) = 0) :=
  ⟨(C4_mouse_moved_crossing ⟨⟨⟨0, 0, 0, 10, 10⟩⟩, ⟨⟨0, 100, 200, 10, 10⟩⟩, false, true⟩
      ⟨0, 0, 1, 1, 0, 0, 1, [255]⟩ 3 4).1 rfl (by decide),
   (C4_mouse_moved_crossing ⟨⟨⟨0, 0, 0, 10, 10⟩⟩, ⟨⟨0, 100, 200, 10, 10⟩⟩, true, true⟩
      ⟨0, 0, 1, 1, 0, 0, 1, [255]⟩ 123 77).2.1 rfl (by decide),
   (C4_mouse_moved_crossing ⟨⟨⟨0, 0, 0, 10, 10⟩⟩, ⟨⟨0, 100, 200, 10, 10⟩⟩, true, true⟩
      ⟨0, 0, 1, 1, 0, 0, 1, [255]⟩ 5 5).2.2.1 (by decide)⟩

/-- C5: `damage(rec)` leaves `damaged` as it was when the rectangle does not
intersect the source screen and leaves it true when it does, whatever it was
before; it changes nothing else in the object and issues no request at all, so no
capture and no blit. -/
theorem C5_damage_sets_dirty (r : image_replayer) (rec : XRectangle) :
    (r.src_screen.intersect_rectangle rec = false → (r.damage rec).1.damaged = r.damaged)
    ∧ (r.src_screen.intersect_rectangle rec = true → (r.damage rec).1.damaged = true)
    ∧ (r.damage rec).1.src_screen = r.src_screen
    ∧ (r.damage rec).1.dst_screen = r.dst_screen
    ∧ (r.damage rec).2 = [] := by
  refine ⟨?_, ?_, rfl, rfl, rfl⟩
  · intro h
    simp [image_replayer.damage, h]
  · intro h
    simp [image_replayer.damage, h]

/-- C5 (witness): source region `{0,0,10,10}`; the rectangle `{50,50,5,5}` leaves a
clear flag clear, the rectangle `{5,5,10,10}` sets it. -/
theorem C5_damage_sets_dirty_witness :
    (image_replayer.damage ⟨⟨⟨0, 0, 0, 10, 10⟩⟩, ⟨⟨0, 100, 200, 10, 10⟩⟩, false⟩
        ⟨50, 50, 5, 5⟩).1.damaged = false
    ∧ (image_replayer.damage ⟨⟨⟨0, 0, 0, 10, 10⟩⟩, ⟨⟨0, 100, 200, 10, 10⟩⟩, false⟩
        ⟨5, 5, 10, 10⟩).1.damaged = true :=
  ⟨(C5_damage_sets_dirty ⟨⟨⟨0, 0, 0, 10, 10⟩⟩, ⟨⟨0, 100, 200, 10, 10⟩⟩, false⟩
      ⟨50, 50, 5, 5⟩).1 (by decide),
   (C5_damage_sets_dirty ⟨⟨⟨0, 0, 0, 10, 10⟩⟩, ⟨⟨0, 100, 200, 10, 10⟩⟩, false⟩
      ⟨5, 5, 10, 10⟩).2.1 (by decide)⟩

/-- C6: two consecutive calls of `copy_if_damaged()` issue the requests of the first
call alone and end in the state the first call ends in.  With `damaged` set the
first call issues one capture of the source screen, one blit to the destination
screen's origin and one flush, and clears `damaged`, and the second call issues
nothing; with `damaged` clear neither call issues anything and the object is
unchanged. -/
theorem C6_copy_if_damaged_twice (r : image_replayer) :
    r.copy_if_damaged.1.copy_if_damaged.1 = r.copy_if_damaged.1
    ∧ r.copy_if_damaged.2 ++ r.copy_if_damaged.1.copy_if_damaged.2 = r.copy_if_damaged.2
    ∧ (r.damaged = true →
        r.copy_if_damaged.2
          = [Action.XShmGetImage r.src_screen.info.x_org r.src_screen.info.y_org,
             Action.XShmPutImage 0 0 r.dst_screen.info.x_org r.dst_screen.info.y_org
               r.src_screen.info.width r.src_screen.info.height,
             Action.XFlush]
        ∧ r.copy_if_damaged.1 = { r with damaged := false }
        ∧ r.copy_if_damaged.1.copy_if_damaged.2 = [])
    ∧ (r.damaged = false →
        r.copy_if_damaged.2 = []
        ∧ r.copy_if_damaged.1.copy_if_damaged.2 = []
        ∧ r.copy_if_damaged.1.copy_if_damaged.1 = r) := by
  cases hd : r.damaged <;>
    simp [image_replayer.copy_if_damaged, hd]

/-- C6 (witness): a dirty replayer for source `{0,0,10,10}` and destination origin
`(100,200)`: the first call captures at `(0,0)` and blits to `(100,200)`, the
second issues nothing. -/
theorem C6_copy_if_damaged_twice_witness :
    (image_replayer.copy_if_damaged
        ⟨⟨⟨0, 0, 0, 10, 10⟩⟩, ⟨⟨0, 100, 200, 10, 10⟩⟩, true⟩).2
      = [Action.XShmGetImage 0 0, Action.XShmPutImage 0 0 100 200 10 10, Action.XFlush]
    ∧ (image_replayer.copy_if_damaged
        ⟨⟨⟨0, 0, 0, 10, 10⟩⟩, ⟨⟨0, 100, 200, 10, 10⟩⟩, true⟩).1
      = ⟨⟨⟨0, 0, 0, 10, 10⟩⟩, ⟨⟨0, 100, 200, 10, 10⟩⟩, false⟩
    ∧ (image_replayer.copy_if_damaged
        ⟨⟨⟨0, 0, 0, 10, 10⟩⟩, ⟨⟨0, 100, 200, 10, 10⟩⟩, true⟩).1.copy_if_damaged.2 = [] :=
  (C6_copy_if_damaged_twice ⟨⟨⟨0, 0, 0, 10, 10⟩⟩, ⟨⟨0, 100, 200, 10, 10⟩⟩, true⟩).2.2.1 rfl

/-- C7 (counterexample): right after construction `damaged` is set, so a damage
rectangle fully outside the source region `{0,0,10,10}` is still followed by one
capture and one blit.  From a clear flag, the empty rectangle `{0,5,0,0}` on the
region's left edge is outside and still triggers a capture, and the empty rectangle
`{10,10,0,0}` on its far corner is inside and triggers none. -/
theorem C7_constructed_dirty_counterexample :
    ((⟨50, 50, 5, 5⟩ : XRectangle).fully_outside ⟨⟨0, 0, 0, 10, 10⟩⟩
      ∧ ((((image_replayer.construct ⟨⟨0, 0, 0, 10, 10⟩⟩ ⟨⟨0, 100, 200, 10, 10⟩⟩).1.damage
            ⟨50, 50, 5, 5⟩).1.copy_if_damaged).2.countP Action.is_capture = 1)
      ∧ ((((image_replayer.construct ⟨⟨0, 0, 0, 10, 10⟩⟩ ⟨⟨0, 100, 200, 10, 10⟩⟩).1.damage
            ⟨50, 50, 5, 5⟩).1.copy_if_damaged).2.countP Action.is_blit = 1))
    ∧ ((⟨0, 5, 0, 0⟩ : XRectangle).fully_outside ⟨⟨0, 0, 0, 10, 10⟩⟩
      ∧ (((image_replayer.damage ⟨⟨⟨0, 0, 0, 10, 10⟩⟩, ⟨⟨0, 100, 200, 10, 10⟩⟩, false⟩
            ⟨0, 5, 0, 0⟩).1.copy_if_damaged).2.countP Action.is_capture = 1))
    ∧ ((⟨10, 10, 0, 0⟩ : XRectangle).fully_inside ⟨⟨0, 0, 0, 10, 10⟩⟩
      ∧ (((image_replayer.damage ⟨⟨⟨0, 0, 0, 10, 10⟩⟩, ⟨⟨0, 100, 200, 10, 10⟩⟩, false⟩
            ⟨10, 10, 0, 0⟩).1.copy_if_damaged).2.countP Action.is_capture = 0)) := by
  refine ⟨⟨by decide, by decide, by decide⟩, ⟨by decide, by decide⟩, ⟨by decide, by decide⟩⟩

/-- C7 (amended): take a constructed `image_replayer` whose first `copy_if_damaged()`
has cleared the flag the constructor sets, a source region of non-negative extent and
a rectangle of positive width and height.  After `damage(rec)` for a rectangle fully
outside the source region `copy_if_damaged()` issues nothing; after `damage(rec)` for
a rectangle fully inside it issues exactly one capture and exactly one blit, to
`(dst_region.x_org, dst_region.y_org)`.  Directly after construction the pass issues
one capture and one blit to that origin whatever the rectangle. -/
theorem C7_damage_then_copy (src_screen dst_screen : xinerama_screen) (rec : XRectangle)
    (hw : 0 < rec.width) (hh : 0 < rec.height) (hs : nonneg_extent src_screen) :
    (rec.fully_outside src_screen →
      (((image_replayer.construct src_screen dst_screen).1.copy_if_damaged.1.damage
          rec).1.copy_if_damaged).2 = [])
    ∧ (rec.fully_inside src_screen →
      (((image_replayer.construct src_screen dst_screen).1.copy_if_damaged.1.damage
          rec).1.copy_if_damaged).2.filter Action.is_capture
        = [Action.XShmGetImage src_screen.info.x_org src_screen.info.y_org]
      ∧ (((image_replayer.construct src_screen dst_screen).1.copy_if_damaged.1.damage
          rec).1.copy_if_damaged).2.filter Action.is_blit
        = [Action.XShmPutImage 0 0 dst_screen.info.x_org dst_screen.info.y_org
            src_screen.info.width src_screen.info.height])
    ∧ ((((image_replayer.construct src_screen dst_screen).1.damage
          rec).1.copy_if_damaged).2.filter Action.is_capture
        = [Action.XShmGetImage src_screen.info.x_org src_screen.info.y_org]
      ∧ (((image_replayer.construct src_screen dst_screen).1.damage
          rec).1.copy_if_damaged).2.filter Action.is_blit
        = [Action.XShmPutImage 0 0 dst_screen.info.x_org dst_screen.info.y_org
            src_screen.info.width src_screen.info.height]) := by
  refine ⟨?_, ?_, ?_⟩
  · intro hout
    have hi := intersect_rectangle_of_fully_outside src_screen rec hw hh hs hout
    simp [image_replayer.construct, image_replayer.copy_if_damaged, image_replayer.damage, hi]
  · intro hin
    have hi := intersect_rectangle_of_fully_inside src_screen rec hw hh hin
    simp [image_replayer.construct, image_replayer.copy_if_damaged, image_replayer.damage, hi,
      Action.is_capture, Action.is_blit]
  · simp [image_replayer.construct, image_replayer.copy_if_damaged, image_replayer.damage,
      Action.is_capture, Action.is_blit]

/-- C7 (witness): source region `{0,0,10,10}`, destination origin `(100,200)`, and the
rectangle `{2,2,3,3}` inside the source region: after the first pass, damage and a
second pass give one capture at `(0,0)` and one blit to `(100,200)`. -/
theorem C7_damage_then_copy_witness :
    (((image_replayer.construct ⟨⟨0, 0, 0, 10, 10⟩⟩
          ⟨⟨0, 100, 200, 10, 10⟩⟩).1.copy_if_damaged.1.damage
        ⟨2, 2, 3, 3⟩).1.copy_if_damaged).2.filter Action.is_capture
      = [Action.XShmGetImage 0 0]
    ∧ (((image_replayer.construct ⟨⟨0, 0, 0, 10, 10⟩⟩
          ⟨⟨0, 100, 200, 10, 10⟩⟩).1.copy_if_damaged.1.damage
        ⟨2, 2, 3, 3⟩).1.copy_if_damaged).2.filter Action.is_blit
      = [Action.XShmPutImage 0 0 100 200 10 10] :=
  (C7_damage_then_copy ⟨⟨0, 0, 0, 10, 10⟩⟩ ⟨⟨0, 100, 200, 10, 10⟩⟩ ⟨2, 2, 3, 3⟩
    (by decide) (by decide) (by decide)).2.1 (by decide)

/-- C8 (counterexample): outside the source region `{0,0,10,10}` at `(-7,-3)` with
wiggle enabled the single warp goes to `(-7,-3)`, which is not `(-7 mod 50, -3 mod 50)
= (43,47)` and not a point of `[0,50) x [0,50)`. -/
theorem C8_negative_position_counterexample :
    xinerama_screen.in_screen ⟨⟨0, 0, 0, 10, 10⟩⟩ (-7) (-3) = false
    ∧ (mouse_replayer.mouse_moved ⟨⟨⟨0, 0, 0, 10, 10⟩⟩, ⟨⟨0, 100, 200, 10, 10⟩⟩, false, true⟩
        ⟨0, 0, 1, 1, 0, 0, 1, [255]⟩ (-7) (-3)).2.filter Action.is_warp
      = [Action.XWarpPointer (-7) (-3)]
    ∧ (mouse_replayer.mouse_moved ⟨⟨⟨0, 0, 0, 10, 10⟩⟩, ⟨⟨0, 100, 200, 10, 10⟩⟩, false, true⟩
        ⟨0, 0, 1, 1, 0, 0, 1, [255]⟩ (-7) (-3)).2.filter Action.is_warp
      ≠ [Action.XWarpPointer ((-7) % 50) ((-3) % 50)]
    ∧ ¬ ∃ px py : Int, 0 ≤ px ∧ 0 ≤ py
        ∧ (mouse_replayer.mouse_moved
            ⟨⟨⟨0, 0, 0, 10, 10⟩⟩, ⟨⟨0, 100, 200, 10, 10⟩⟩, false, true⟩
            ⟨0, 0, 1, 1, 0, 0, 1, [255]⟩ (-7) (-3)).2.filter Action.is_warp
          = [Action.XWarpPointer px py] := by
  have hw : (mouse_replayer.mouse_moved
      ⟨⟨⟨0, 0, 0, 10, 10⟩⟩, ⟨⟨0, 100, 200, 10, 10⟩⟩, false, true⟩
      ⟨0, 0, 1, 1, 0, 0, 1, [255]⟩ (-7) (-3)).2.filter Action.is_warp
      = [Action.XWarpPointer (-7) (-3)] := by decide
  refine ⟨by decide, hw, by decide, ?_⟩
  rintro ⟨px, py, hx, -, h⟩
  rw [hw] at h
  simp only [List.cons.injEq, Action.XWarpPointer.injEq, and_true] at h
  omega

/-- C8 (amended): for every pointer position `(x,y)` outside the source region,
`mouse_moved` with wiggle enabled issues exactly one warp, to the C remainders
`(x % 50, y % 50)`, which truncate towards zero; when `x` and `y` are not negative
this is `(x mod 50, y mod 50)`, a point of `[0,50) x [0,50)`.  With wiggle disabled it
issues no warp. -/
theorem C8_wiggle_warp (m : mouse_replayer) (cur : XFixesCursorImage) (x y : Int)
    (hout : m.src_screen.in_screen x y = false) :
    (m.wiggle = true →
      (m.mouse_moved cur x y).2.filter Action.is_warp
        = [Action.XWarpPointer (Int.tmod x 50) (Int.tmod y 50)])
    ∧ (m.wiggle = true → 0 ≤ x → 0 ≤ y →
      (m.mouse_moved cur x y).2.filter Action.is_warp
          = [Action.XWarpPointer (x % 50) (y % 50)]
        ∧ 0 ≤ x % 50 ∧ x % 50 < 50 ∧ 0 ≤ y % 50 ∧ y % 50 < 50)
    ∧ (m.wiggle = false → (m.mouse_moved cur x y).2.filter Action.is_warp = []) := by
  have hwig : m.wiggle = true →
      (m.mouse_moved cur x y).2.filter Action.is_warp
        = [Action.XWarpPointer (Int.tmod x 50) (Int.tmod y 50)] := by
    intro hw
    cases hon : m.is_on <;>
      simp [mouse_replayer.mouse_moved, hout, hw, hon, Action.is_warp]
  refine ⟨hwig, ?_, ?_⟩
  · intro hw hx hy
    rw [hwig hw, Int.tmod_eq_emod hx (by decide), Int.tmod_eq_emod hy (by decide)]
    refine ⟨rfl, ?_, ?_, ?_, ?_⟩ <;> omega
  · intro hw
    cases hon : m.is_on <;>
      simp [mouse_replayer.mouse_moved, hout, hw, hon, Action.is_warp]

/-- C8 (witness): outside the source region `{0,0,10,10}` at `(123,77)` with wiggle
enabled the warp goes to `(23,27)`. -/
theorem C8_wiggle_warp_witness :
    (mouse_replayer.mouse_moved ⟨⟨⟨0, 0, 0, 10, 10⟩⟩, ⟨⟨0, 100, 200, 10, 10⟩⟩, false, true⟩
        ⟨0, 0, 1, 1, 0, 0, 1, [255]⟩ 123 77).2.filter Action.is_warp
      = [Action.XWarpPointer 23 27] :=
  (C8_wiggle_warp ⟨⟨⟨0, 0, 0, 10, 10⟩⟩, ⟨⟨0, 100, 200, 10, 10⟩⟩, false, true⟩
    ⟨0, 0, 1, 1, 0, 0, 1, [255]⟩ 123 77 (by decide)).1 rfl

/-- C9: while `on` is set, `cursor_changed()` loads and defines one cursor image built
from the source cursor image `{w, h, xhot, yhot, pixels}`: its size is `max(w,h)`, its
width, height and hotspot are the source's, and its pixels are the source's `w*h`
pixels in the same order, each reduced modulo `2 ^ 32`. -/
theorem C9_cursor_changed_image (m : mouse_replayer) (cur : XFixesCursorImage)
    (hon : m.is_on = true) (hw : cur.width ≤ 65535) (hh : cur.height ≤ 65535)
    (hlen : cur.pixels.length = cur.width * cur.height) :
    ∃ image : XcursorImage,
      (m.cursor_changed cur).2
        = [Action.XFixesGetCursorImage, Action.XcursorImageLoadCursor image, Action.XFree,
           Action.XDefineCursor (Cursor.loaded image),
           Action.XFreeCursor (Cursor.loaded image), Action.XFlush]
      ∧ image.size = max cur.width cur.height
      ∧ image.width = cur.width ∧ image.height = cur.height
      ∧ image.xhot = cur.xhot ∧ image.yhot = cur.yhot
      ∧ image.pixels = cur.pixels.map (fun p => p % 4294967296)
      ∧ image.pixels.length = cur.width * cur.height := by
  have hprod : cur.width * cur.height ≤ 65535 * 65535 := Nat.mul_le_mul hw hh
  have hmod : (cur.width * cur.height) % 4294967296 = cur.pixels.length := by
    rw [hlen]
    exact Nat.mod_eq_of_lt (by omega)
  have hpix : (convert_cursor cur).pixels = cur.pixels.map (fun p => p % 4294967296) := by
    unfold convert_cursor
    simp only
    rw [hmod, copy_pixels_eq_map cur.pixels cur.pixels.length 0 (by omega), List.drop_zero,
      List.take_length]
  refine ⟨convert_cursor cur, ?_, rfl, rfl, rfl, rfl, rfl, hpix, ?_⟩
  · simp [mouse_replayer.cursor_changed, hon]
  · rw [hpix, List.length_map, hlen]

/-- C9 (witness): a 2x1 source cursor with hotspot `(1,0)` and pixels
`[2^32 + 5, 9]` is loaded as an image of size 2 with pixels `[5, 9]`. -/
theorem C9_cursor_changed_image_witness :
    ∃ image : XcursorImage,
      (mouse_replayer.cursor_changed
          ⟨⟨⟨0, 0, 0, 10, 10⟩⟩, ⟨⟨0, 100, 200, 10, 10⟩⟩, true, true⟩
          ⟨0, 0, 2, 1, 1, 0, 7, [4294967301, 9]⟩).2
        = [Action.XFixesGetCursorImage, Action.XcursorImageLoadCursor image, Action.XFree,
           Action.XDefineCursor (Cursor.loaded image),
           Action.XFreeCursor (Cursor.loaded image), Action.XFlush]
      ∧ image.size = 2 ∧ image.width = 2 ∧ image.height = 1
      ∧ image.xhot = 1 ∧ image.yhot = 0
      ∧ image.pixels = [5, 9] ∧ image.pixels.length = 2 :=
  C9_cursor_changed_image ⟨⟨⟨0, 0, 0, 10, 10⟩⟩, ⟨⟨0, 100, 200, 10, 10⟩⟩, true, true⟩
    ⟨0, 0, 2, 1, 1, 0, 7, [4294967301, 9]⟩ rfl (by decide) (by decide) rfl

/-- C10: one iteration of the main loop over the batch `e :: es` issues `pre`, then the
single acknowledge (`clear_damage`), then the single call of `copy_if_damaged()` with
its requests `post`.  `pre` holds the calls of `damage()` for exactly the damage
rectangles of the batch, in queue order, and no acknowledge, capture or blit; `post`
is one capture, one blit and a flush if `damaged` was set on entry or some damage
rectangle of the batch intersects the source screen, and is empty otherwise; the
iteration ends with `damaged` clear. -/
theorem C10_main_iteration_order (st : main_state) (e : XEvent) (es : List XEvent) :
    ∃ pre post : List Action,
      (main_iteration st e es).2
          = pre ++ [Action.call_clear_damage, Action.XDamageSubtract,
              Action.call_copy_if_damaged] ++ post
      ∧ pre.filterMap Action.damage_call = (e :: es).filterMap XEvent.damage_area
      ∧ (∀ a ∈ pre, a.is_pass_action = false)
      ∧ post =
          (if st.image.damaged || (e :: es).any (XEvent.hits st.image.src_screen) then
            [Action.XShmGetImage st.image.src_screen.info.x_org st.image.src_screen.info.y_org,
             Action.XShmPutImage 0 0 st.image.dst_screen.info.x_org
               st.image.dst_screen.info.y_org
               st.image.src_screen.info.width st.image.src_screen.info.height,
             Action.XFlush]
          else [])
      ∧ (main_iteration st e es).1.image.damaged = false := by
  obtain ⟨h1, h2, h3⟩ := main_drain_spec st (e :: es)
  refine ⟨(main_drain st (e :: es)).2,
    (main_drain st (e :: es)).1.image.copy_if_damaged.2, ?_, h2, h3, ?_, ?_⟩
  · simp [main_iteration]
  · rw [h1]
    cases hd : (st.image.damaged || (e :: es).any (XEvent.hits st.image.src_screen)) <;>
      simp [image_replayer.copy_if_damaged, hd]
  · unfold main_iteration
    simp only
    cases hd : (main_drain st (e :: es)).1.image.damaged <;>
      simp [image_replayer.copy_if_damaged, hd]

/-- C11: after construction and any sequence of `mouse_moved(x,y)` and
`cursor_changed()` calls, if `on` is clear the cursor last defined on the destination
window is the invisible cursor; `on` is set exactly when a position has been reported
and the last one lies in the source region; a call defines a cursor loaded from the
source only when the last reported position, the one of that call included, lies in
the source region; and while `on` is clear `cursor_changed()` issues nothing and
changes nothing. -/
theorem C11_off_shows_invisible_cursor (src_screen dst_screen : xinerama_screen)
    (wiggle : Bool) (calls : List mouse_call) :
    (((mouse_replayer.construct src_screen dst_screen wiggle).1.run calls).1.is_on = false →
      defined_cursor none
          ((mouse_replayer.construct src_screen dst_screen wiggle).2
            ++ ((mouse_replayer.construct src_screen dst_screen wiggle).1.run calls).2)
        = some Cursor.invisibleCursor)
    ∧ (((mouse_replayer.construct src_screen dst_screen wiggle).1.run calls).1.is_on = true ↔
      ∃ p : Int × Int, last_position none calls = some p
        ∧ src_screen.in_screen p.1 p.2 = true)
    ∧ (∀ (before after : List mouse_call) (c : mouse_call) (image : XcursorImage),
      calls = before ++ c :: after →
      Action.XDefineCursor (Cursor.loaded image)
        ∈ (((mouse_replayer.construct src_screen dst_screen wiggle).1.run before).1.step c).2 →
      ∃ p : Int × Int, last_position none (before ++ [c]) = some p
        ∧ src_screen.in_screen p.1 p.2 = true)
    ∧ (∀ cur : XFixesCursorImage,
      ((mouse_replayer.construct src_screen dst_screen wiggle).1.run calls).1.is_on = false →
      ((mouse_replayer.construct src_screen dst_screen wiggle).1.run calls).1.cursor_changed cur
        = (((mouse_replayer.construct src_screen dst_screen wiggle).1.run calls).1, [])) := by
  have hinv : ∀ cs : List mouse_call,
      mirror_invariant ((mouse_replayer.construct src_screen dst_screen wiggle).1.run cs).1
        (defined_cursor
          (defined_cursor none (mouse_replayer.construct src_screen dst_screen wiggle).2)
          ((mouse_replayer.construct src_screen dst_screen wiggle).1.run cs).2)
        (last_position none cs) := fun cs =>
    mirror_invariant_run _ _ none cs
      (mirror_invariant_construct src_screen dst_screen wiggle)
  have hsrc : ∀ cs : List mouse_call,
      ((mouse_replayer.construct src_screen dst_screen wiggle).1.run cs).1.src_screen
        = src_screen := fun cs =>
    mouse_replayer.run_src_screen _ cs
  have hon : ∀ cs : List mouse_call,
      (((mouse_replayer.construct src_screen dst_screen wiggle).1.run cs).1.is_on = true ↔
        ∃ p : Int × Int, last_position none cs = some p
          ∧ src_screen.in_screen p.1 p.2 = true) := by
    intro cs
    have h := (hinv cs).2
    rw [hsrc cs] at h
    exact h
  refine ⟨?_, hon calls, ?_, ?_⟩
  · intro hoff
    rw [defined_cursor_append]
    exact (hinv calls).1 hoff
  · intro before after c image _ hmem
    apply (hon (before ++ [c])).mp
    rw [mouse_replayer.run_append]
    simp only [mouse_replayer.run]
    exact mouse_replayer.step_on_of_loaded _ c image hmem
  · intro cur hoff
    simp [mouse_replayer.cursor_changed, hoff]

/-- C11 (witness): source region `{0,0,10,10}`; the pointer enters at `(3,4)`, the
source cursor changes, the pointer leaves to `(123,77)`: `on` is clear again and the
cursor last defined on the destination window is the invisible one. -/
theorem C11_off_shows_invisible_cursor_witness :
    defined_cursor none
        ((mouse_replayer.construct ⟨⟨0, 0, 0, 10, 10⟩⟩ ⟨⟨0, 100, 200, 10, 10⟩⟩ true).2
          ++ ((mouse_replayer.construct ⟨⟨0, 0, 0, 10, 10⟩⟩ ⟨⟨0, 100, 200, 10, 10⟩⟩ true).1.run
              [mouse_call.mouse_moved ⟨0, 0, 1, 1, 0, 0, 1, [255]⟩ 3 4,
               mouse_call.cursor_changed ⟨0, 0, 1, 1, 0, 0, 2, [65535]⟩,
               mouse_call.mouse_moved ⟨0, 0, 1, 1, 0, 0, 2, [65535]⟩ 123 77]).2)
      = some Cursor.invisibleCursor :=
  (C11_off_shows_invisible_cursor ⟨⟨0, 0, 0, 10, 10⟩⟩ ⟨⟨0, 100, 200, 10, 10⟩⟩ true
    [mouse_call.mouse_moved ⟨0, 0, 1, 1, 0, 0, 1, [255]⟩ 3 4,
     mouse_call.cursor_changed ⟨0, 0, 1, 1, 0, 0, 2, [65535]⟩,
     mouse_call.mouse_moved ⟨0, 0, 1, 1, 0, 0, 2, [65535]⟩ 123 77]).1 (by decide)

/-- C12: when the destination region is at least as wide and as high as the source
region and `(x,y)` lies in the source region, `mouse_moved` issues its single warp to
`(x - src.x_org + dst.x_org, y - src.y_org + dst.y_org)` and that point lies in the
destination region. -/
theorem C12_warp_target_in_dst_screen (m : mouse_replayer) (cur : XFixesCursorImage)
    (x y : Int)
    (hw : m.src_screen.info.width ≤ m.dst_screen.info.width)
    (hh : m.src_screen.info.height ≤ m.dst_screen.info.height)
    (hin : m.src_screen.in_screen x y = true) :
    (m.mouse_moved cur x y).2.filter Action.is_warp
        = [Action.XWarpPointer (x - m.src_screen.info.x_org + m.dst_screen.info.x_org)
            (y - m.src_screen.info.y_org + m.dst_screen.info.y_org)]
    ∧ m.dst_screen.in_screen (x - m.src_screen.info.x_org + m.dst_screen.info.x_org)
        (y - m.src_screen.info.y_org + m.dst_screen.info.y_org) = true := by
  constructor
  · cases hon : m.is_on <;>
      simp [mouse_replayer.mouse_moved, mouse_replayer.cursor_changed, hin, hon,
        Action.is_warp]
  · unfold xinerama_screen.in_screen at hin ⊢
    simp only [Bool.and_eq_true, decide_eq_true_eq, ge_iff_le] at hin ⊢
    obtain ⟨⟨⟨h1, h2⟩, h3⟩, h4⟩ := hin
    refine ⟨⟨⟨?_, ?_⟩, ?_⟩, ?_⟩ <;> omega

/-- C12 (witness): source region `{0,0,10,10}`, destination region `{100,200,10,10}`;
the position `(9,9)` is warped to `(109,209)`, inside the destination region. -/
theorem C12_warp_target_in_dst_screen_witness :
    (mouse_replayer.mouse_moved ⟨⟨⟨0, 0, 0, 10, 10⟩⟩, ⟨⟨0, 100, 200, 10, 10⟩⟩, false, true⟩
        ⟨0, 0, 1, 1, 0, 0, 1, [255]⟩ 9 9).2.filter Action.is_warp
      = [Action.XWarpPointer 109 209]
    ∧ xinerama_screen.in_screen ⟨⟨0, 100, 200, 10, 10⟩⟩ 109 209 = true :=
  C12_warp_target_in_dst_screen
    ⟨⟨⟨0, 0, 0, 10, 10⟩⟩, ⟨⟨0, 100, 200, 10, 10⟩⟩, false, true⟩
    ⟨0, 0, 1, 1, 0, 0, 1, [255]⟩ 9 9 (by decide) (by decide) (by decide)

end ScreenClone
